import Mathlib

/-!
Shallow embedding of the SROS event-handling script
examples/opergroup_bgp_sros.py (functions find_interfaces,
modify_downstream_interfaces, count_ebgp_sessions_established,
backwardsHandler, establishedHandler, main) together with proofs of the
specified properties.  The device is a snapshot record; running.get and
candidate.set are modelled through an environment that says whether they
succeed or raise; every step returns its result, the device state and the
list of observable events it emitted, the latter surviving an uncaught
exception (as Python side effects do).
-/

namespace OperGroup

/-- Operational and administrative state of one router interface, as read by
the state query inside find_interfaces. -/
structure IfState where
  operState : String
  adminState : String
  lastOperChange : String
deriving DecidableEq

/-- Snapshot of the device data the script reads and writes: the Base router
interface list (name, state), the configured BGP neighbors (address, group)
and the operational BGP neighbor sessions (address, session-state). -/
structure Device where
  interfaces : List (String × IfState)
  bgpConf : List (String × String)
  bgpState : List (String × String)
deriving DecidableEq

/-- Exceptions of the embedded script: SrosMgmtError and TypeError raised by
candidate.set, IndexError from indexing an empty subject, a transport
failure raised by running.get, and the assert guarding the change argument
of modify_downstream_interfaces. -/
inductive PyError where
  | srosMgmt
  | typeErr
  | indexErr
  | transport
  | assertionErr
deriving DecidableEq

/-- Behaviour of connection.candidate.set in this invocation: succeed, raise
SrosMgmtError, or raise TypeError. -/
inductive SetOutcome where
  | ok
  | srosErr
  | typeErr
deriving DecidableEq

/-- Observable events of one invocation, in program order: management-session
connect and disconnect, a running.get query (path tag and filter), a
time.sleep pause, a candidate.set attempt carrying its payload, and the two
error prints of modify_downstream_interfaces. -/
inductive Ev where
  | connect
  | disconnect
  | query (path : String) (filt : String)
  | sleep
  | setAttempt (payload : List (String × String))
  | logError (e : PyError)
  | logPayload (payload : List (String × String))
deriving DecidableEq

/-- Read-only environment of one invocation: how candidate.set behaves and
whether running.get raises a transport failure. -/
structure Ctx where
  setOutcome : SetOutcome
  getRaises : Bool
deriving DecidableEq

/-- Result of one step of the script: the returned value or the uncaught
exception, together with the final device state and the events emitted.
Side effects performed before an exception are kept. -/
inductive Res (α : Type) where
  | ok (a : α) (dev : Device) (t : List Ev)
  | err (e : PyError) (dev : Device) (t : List Ev)
deriving DecidableEq

/-- The event list emitted by a step. -/
def Res.trace {α : Type} : Res α → List Ev
  | .ok _ _ t => t
  | .err _ _ t => t

/-- The device state after a step. -/
def Res.device {α : Type} : Res α → Device
  | .ok _ d _ => d
  | .err _ d _ => d

/-- Whether the step returned normally. -/
def Res.isOk {α : Type} : Res α → Bool
  | .ok _ _ _ => true
  | .err _ _ _ => false

/-- The uncaught exception of a step, if any. -/
def Res.errOf {α : Type} : Res α → Option PyError
  | .ok _ _ _ => none
  | .err e _ _ => some e

/-- WELL_KNOWN_EBGP_GROUP_NAME from the script. -/
def WELL_KNOWN_EBGP_GROUP_NAME : String := "rr"

/-- MIN_NUM_ACTIVE_BGP_SESSIONS from the script. -/
def MIN_NUM_ACTIVE_BGP_SESSIONS : Nat := 1

/-- Does the character list hay start with the character list needle. -/
def startsWithChars : List Char → List Char → Bool
  | _, [] => true
  | [], _ :: _ => false
  | c :: cs, n :: ns => c == n && startsWithChars cs ns

/-- Does needle occur as a contiguous run inside hay (the semantics of the
Python substring test used on interface names). -/
def hasSub (needle : List Char) : List Char → Bool
  | [] => startsWithChars [] needle
  | c :: cs => startsWithChars (c :: cs) needle || hasSub needle cs

/-- The test performed by the line if tester not in interface in
find_interfaces: whether the interface name contains the downstream tag. -/
def containsTester (name : String) : Bool :=
  hasSub (String.data ("tester")) name.data

/-- The pure content of find_interfaces once the query has returned: keep the
interfaces whose oper-state matches the filter, then drop every interface
whose name does not contain the tag tester. -/
def pureInterfaces (d : Device) (filt : String) : List (String × IfState) :=
  (d.interfaces.filter (fun p => p.2.operState == filt)).filter
    (fun p => containsTester p.1)

/-- find_interfaces: one running.get on the Base router interface list with an
oper-state content filter, then the tag filter.  The query raises a
transport failure when the environment says so. -/
def find_interfaces (ctx : Ctx) (d : Device) (filt : String) :
    Res (List (String × IfState)) :=
  if ctx.getRaises then
    .err .transport d [Ev.query ("state-interface") filt]
  else
    .ok (pureInterfaces d filt) d [Ev.query ("state-interface") filt]

/-- Addresses of the BGP neighbors whose operational session-state is
Established (keys of the first running.get of the session counter). -/
def establishedPeers (d : Device) : List String :=
  (d.bgpState.filter (fun p => p.2 == "Established")).map Prod.fst

/-- Addresses of the configured BGP neighbors whose group is the well-known
eBGP group (keys of the second running.get of the session counter). -/
def configuredPeers (d : Device) : List String :=
  (d.bgpConf.filter (fun p => p.2 == WELL_KNOWN_EBGP_GROUP_NAME)).map Prod.fst

/-- The counting loop of count_ebgp_sessions_established: walk the configured
neighbors and increment when the address also appears among the established
sessions. -/
def countSessions (d : Device) : Nat :=
  (configuredPeers d).foldl
    (fun acc a => if (establishedPeers d).contains a then acc + 1 else acc) 0

/-- count_ebgp_sessions_established: two running.get calls (operational
sessions filtered on Established, configured neighbors filtered on the
group), then the counting loop.  No side effect besides the queries. -/
def count_ebgp_sessions_established (ctx : Ctx) (d : Device) : Res Nat :=
  if ctx.getRaises then
    .err .transport d [Ev.query ("state-bgp-neighbor") ("Established")]
  else
    .ok (countSessions d) d
      [Ev.query ("state-bgp-neighbor") ("Established"),
       Ev.query ("conf-bgp-neighbor") WELL_KNOWN_EBGP_GROUP_NAME]

/-- The NETCONF payload built by modify_downstream_interfaces: one entry per
selected interface carrying the requested admin-state value. -/
def mkPayload (active : List (String × IfState)) (change : String) :
    List (String × String) :=
  active.map (fun p => (p.1, change))

/-- Effect of a successful candidate.set: the admin-state of every interface
named in the payload becomes the requested value. -/
def applySet (ifs : List (String × IfState)) (names : List String)
    (change : String) : List (String × IfState) :=
  ifs.map (fun p =>
    if names.contains p.1 then (p.1, { p.2 with adminState := change }) else p)

/-- modify_downstream_interfaces: assert the change is enable or disable,
build the payload, and if it is non-empty submit it once through
candidate.set, catching SrosMgmtError (print the error detail) and TypeError
(print the error, then the offending payload); always return True. -/
def modify_downstream_interfaces (ctx : Ctx) (d : Device)
    (active : List (String × IfState)) (change : String) : Res Bool :=
  if change = "enable" ∨ change = "disable" then
    let payload := mkPayload active change
    if payload.isEmpty then
      .ok true d []
    else
      match ctx.setOutcome with
      | .ok =>
          .ok true
            { d with interfaces := applySet d.interfaces (payload.map Prod.fst) change }
            [Ev.setAttempt payload]
      | .srosErr =>
          .ok true d [Ev.setAttempt payload, Ev.logError .srosMgmt]
      | .typeErr =>
          .ok true d [Ev.setAttempt payload, Ev.logError .typeErr,
                      Ev.logPayload payload]
  else
    .err .assertionErr d []

/-- backwardsHandler: on a session-degradation event, count the established
upstream sessions; at or above the threshold do nothing; below it select the
operationally Up downstream interfaces and, when any exist, sleep, disable
them in one batch, sleep again and re-query with the Down filter. -/
def backwardsHandler (ctx : Ctx) (d : Device) (subject : String) : Res Unit :=
  match count_ebgp_sessions_established ctx d with
  | .err e d1 t1 => .err e d1 t1
  | .ok active_ebgp_sessions d1 t1 =>
    if active_ebgp_sessions ≥ MIN_NUM_ACTIVE_BGP_SESSIONS then
      .ok () d1 t1
    else
      match find_interfaces ctx d1 ("up") with
      | .err e d2 t2 => .err e d2 (t1 ++ t2)
      | .ok active_interfaces d2 t2 =>
        if active_interfaces.isEmpty then
          .ok () d2 (t1 ++ t2)
        else
          match modify_downstream_interfaces ctx d2 active_interfaces ("disable") with
          | .err e d3 t3 => .err e d3 (t1 ++ t2 ++ [Ev.sleep] ++ t3)
          | .ok _ d3 t3 =>
            match find_interfaces ctx d3 ("down") with
            | .err e d4 t4 =>
                .err e d4 (t1 ++ t2 ++ [Ev.sleep] ++ t3 ++ [Ev.sleep] ++ t4)
            | .ok _ d4 t4 =>
                .ok () d4 (t1 ++ t2 ++ [Ev.sleep] ++ t3 ++ [Ev.sleep] ++ t4)

/-- establishedHandler: on a session-establishment event, count the
established upstream sessions; below the threshold do nothing; at or above
it select the operationally Down downstream interfaces and, when any exist,
sleep, enable them in one batch, sleep again and re-query with the Up
filter. -/
def establishedHandler (ctx : Ctx) (d : Device) (subject : String) : Res Unit :=
  match count_ebgp_sessions_established ctx d with
  | .err e d1 t1 => .err e d1 t1
  | .ok active_ebgp_sessions d1 t1 =>
    if active_ebgp_sessions ≥ MIN_NUM_ACTIVE_BGP_SESSIONS then
      match find_interfaces ctx d1 ("down") with
      | .err e d2 t2 => .err e d2 (t1 ++ t2)
      | .ok active_interfaces d2 t2 =>
        if active_interfaces.isEmpty then
          .ok () d2 (t1 ++ t2)
        else
          match modify_downstream_interfaces ctx d2 active_interfaces ("enable") with
          | .err e d3 t3 => .err e d3 (t1 ++ t2 ++ [Ev.sleep] ++ t3)
          | .ok _ d3 t3 =>
            match find_interfaces ctx d3 ("up") with
            | .err e d4 t4 =>
                .err e d4 (t1 ++ t2 ++ [Ev.sleep] ++ t3 ++ [Ev.sleep] ++ t4)
            | .ok _ d4 t4 =>
                .ok () d4 (t1 ++ t2 ++ [Ev.sleep] ++ t3 ++ [Ev.sleep] ++ t4)
    else
      .ok () d1 t1

/-- The event delivered by get_event: identifier and subject string. -/
structure Event where
  eventid : Nat
  subject : String
deriving DecidableEq

/-- main: connect, fetch the event; with no event, or a subject whose first
character is a digit, disconnect and return; indexing the first character of
an empty subject raises IndexError before any disconnect.  Event 2039 runs
backwardsHandler, 2038 runs establishedHandler, anything else runs no
handler; an exception escaping a handler skips the final disconnect. -/
def main (ctx : Ctx) (d : Device) (trigger_event : Option Event) : Res Unit :=
  match trigger_event with
  | none => .ok () d [Ev.connect, Ev.disconnect]
  | some ev =>
    match ev.subject.data with
    | [] => .err .indexErr d [Ev.connect]
    | c :: _ =>
      if c.isDigit then
        .ok () d [Ev.connect, Ev.disconnect]
      else
        match (if ev.eventid = 2039 then backwardsHandler ctx d ev.subject
               else if ev.eventid = 2038 then establishedHandler ctx d ev.subject
               else .ok () d []) with
        | .err e dev t => .err e dev (Ev.connect :: t)
        | .ok _ dev t => .ok () dev (Ev.connect :: t ++ [Ev.disconnect])

/-- Wrapping main applies around the dispatched handler result: connect in
front, disconnect at the end of a normal return, nothing after an escaped
exception. -/
def wrapRes (r : Res Unit) : Res Unit :=
  match r with
  | .ok a dev t => .ok a dev (Ev.connect :: t ++ [Ev.disconnect])
  | .err e dev t => .err e dev (Ev.connect :: t)

/-- The Session Counter contract in the words of the specification: the
number of configured peers of the monitored group whose address appears
among the Established sessions. -/
def specSessionCount (d : Device) : Nat :=
  ((configuredPeers d).filter (fun a => (establishedPeers d).contains a)).length

/-- True of every event that is not a mutation attempt. -/
def evNoSet : Ev → Bool
  | .setAttempt _ => false
  | _ => true

/-- No candidate.set attempt occurs in the trace. -/
def noSetAttempt (t : List Ev) : Bool := t.all evNoSet

/-- Every interface named in a payload carries the downstream tag. -/
def payloadTester (p : List (String × String)) : Bool :=
  p.all (fun q => containsTester q.1)

/-- True of an event unless it is a mutation attempt naming an interface
without the downstream tag. -/
def evTesterOnly : Ev → Bool
  | .setAttempt p => payloadTester p
  | _ => true

/-- Every mutation attempt in the trace names only tagged interfaces. -/
def traceTesterOnly (t : List Ev) : Bool := t.all evTesterOnly

/-- True of the events a handler may emit: everything except connect and
disconnect, which only main emits. -/
def evCore : Ev → Bool
  | .connect => false
  | .disconnect => false
  | _ => true

/-- The trace holds no connect and no disconnect event. -/
def coreOnly (t : List Ev) : Bool := t.all evCore

/-- Number of sleep pauses in a trace. -/
def sleepCount (t : List Ev) : Nat := t.count Ev.sleep

/-- Number of disconnect events in a trace. -/
def disconnectCount (t : List Ev) : Nat := t.count Ev.disconnect

/-- The delivered event, if any, has a non-empty subject. -/
def eventSubjectOk : Option Event → Bool
  | none => true
  | some ev => !ev.subject.data.isEmpty

/-- An interface state that is operationally up and enabled. -/
def sampleIf : IfState :=
  { operState := "up", adminState := "enable", lastOperChange := "t0" }

/-- Sample snapshot: one up tagged interface, one configured peer of the
monitored group, no established session. -/
def sampleDevice : Device :=
  { interfaces := [("tester-1", sampleIf)]
  , bgpConf := [("10.0.0.1", "rr")]
  , bgpState := [] }

/-- Sample snapshot whose configured peer has an Established session. -/
def upDevice : Device :=
  { interfaces := [("tester-1", sampleIf)]
  , bgpConf := [("10.0.0.1", "rr")]
  , bgpState := [("10.0.0.1", "Established")] }

/-- Sample snapshot whose tagged interface is already operationally down. -/
def downDevice : Device :=
  { interfaces :=
      [("tester-1",
        { operState := "down", adminState := "disable", lastOperChange := "t0" })]
  , bgpConf := [("10.0.0.1", "rr")]
  , bgpState := [] }

/-- Environment where both collaborators behave. -/
def okCtx : Ctx := { setOutcome := .ok, getRaises := false }

/-- Environment where candidate.set raises SrosMgmtError. -/
def srosCtx : Ctx := { setOutcome := .srosErr, getRaises := false }

/-- Environment where candidate.set raises TypeError. -/
def typeCtx : Ctx := { setOutcome := .typeErr, getRaises := false }

/-- Environment where running.get raises a transport failure. -/
def raisingCtx : Ctx := { setOutcome := .ok, getRaises := true }

/-- A degradation event with a well-formed subject. -/
def evDeg : Event := { eventid := 2039, subject := "peerA" }

/-- An establishment event with a well-formed subject. -/
def evEst : Event := { eventid := 2038, subject := "peerA" }

/-- Every interface selected by find_interfaces carries the downstream tag. -/
theorem pureInterfaces_tester (d : Device) (filt : String) :
    ∀ nm ∈ pureInterfaces d filt, containsTester nm.1 = true := by
  intro nm hnm
  exact (List.mem_filter.mp hnm).2

/-- Boolean form of pureInterfaces_tester. -/
theorem pureInterfaces_all (d : Device) (filt : String) :
    (pureInterfaces d filt).all (fun p => containsTester p.1) = true := by
  rw [List.all_eq_true]
  exact pureInterfaces_tester d filt

/-- The payload names exactly the selected interfaces. -/
theorem payloadTester_mkPayload (active : List (String × IfState))
    (change : String) :
    payloadTester (mkPayload active change)
      = active.all (fun p => containsTester p.1) := by
  unfold payloadTester mkPayload
  induction active with
  | nil => rfl
  | cons x xs ih => simp_all [List.all_cons]

/-- The payload is empty exactly when no interface was selected. -/
theorem mkPayload_isEmpty (active : List (String × IfState)) (change : String) :
    (mkPayload active change).isEmpty = active.isEmpty := by
  cases active <;> simp [mkPayload]

/-- Shape of modify_downstream_interfaces on a valid non-empty request: one
candidate.set attempt whose payload names the selected interfaces, a normal
True return in all three environments, logging of the error detail under
SrosMgmtError and of the detail plus the payload under TypeError. -/
theorem modify_cases (ctx : Ctx) (d : Device) (active : List (String × IfState))
    (change : String) (hch : change = "enable" ∨ change = "disable")
    (hne : active.isEmpty = false) :
    modify_downstream_interfaces ctx d active change =
      match ctx.setOutcome with
      | .ok =>
          .ok true
            { d with interfaces :=
                applySet d.interfaces ((mkPayload active change).map Prod.fst) change }
            [Ev.setAttempt (mkPayload active change)]
      | .srosErr =>
          .ok true d [Ev.setAttempt (mkPayload active change),
                      Ev.logError .srosMgmt]
      | .typeErr =>
          .ok true d [Ev.setAttempt (mkPayload active change),
                      Ev.logError .typeErr,
                      Ev.logPayload (mkPayload active change)] := by
  rw [modify_downstream_interfaces, if_pos hch]
  simp only [mkPayload_isEmpty, hne, Bool.false_eq_true, if_false]

/-- Trace facts of backwardsHandler: every mutation attempt names only tagged
interfaces, the handler emits neither connect nor disconnect, and the only
exception it can let escape is a transport failure of running.get. -/
theorem backwardsHandler_facts (ctx : Ctx) (d : Device) (s : String) :
    traceTesterOnly (backwardsHandler ctx d s).trace = true
    ∧ coreOnly (backwardsHandler ctx d s).trace = true
    ∧ ((backwardsHandler ctx d s).errOf = none
        ∨ (backwardsHandler ctx d s).errOf = some PyError.transport) := by
  cases hg : ctx.getRaises with
  | true =>
      simp [backwardsHandler, count_ebgp_sessions_established, hg, Res.trace,
            Res.errOf, traceTesterOnly, coreOnly, evTesterOnly, evCore]
  | false =>
      by_cases hc : countSessions d ≥ MIN_NUM_ACTIVE_BGP_SESSIONS
      · simp [backwardsHandler, count_ebgp_sessions_established, hg, hc,
              Res.trace, Res.errOf, traceTesterOnly, coreOnly, evTesterOnly,
              evCore]
      · by_cases he : (pureInterfaces d ("up")).isEmpty
        · simp [backwardsHandler, count_ebgp_sessions_established,
                find_interfaces, hg, hc, he, Res.trace, Res.errOf,
                traceTesterOnly, coreOnly, evTesterOnly, evCore]
        · rw [Bool.not_eq_true] at he
          cases hs : ctx.setOutcome <;>
            simp [backwardsHandler, count_ebgp_sessions_established,
                  find_interfaces, hg, hc, he,
                  modify_cases _ _ _ _ (Or.inr rfl) he, hs,
                  Res.trace, Res.errOf, traceTesterOnly, coreOnly,
                  evTesterOnly, evCore, List.all_append,
                  payloadTester_mkPayload, pureInterfaces_all]

/-- Trace facts of establishedHandler, mirroring backwardsHandler_facts. -/
theorem establishedHandler_facts (ctx : Ctx) (d : Device) (s : String) :
    traceTesterOnly (establishedHandler ctx d s).trace = true
    ∧ coreOnly (establishedHandler ctx d s).trace = true
    ∧ ((establishedHandler ctx d s).errOf = none
        ∨ (establishedHandler ctx d s).errOf = some PyError.transport) := by
  cases hg : ctx.getRaises with
  | true =>
      simp [establishedHandler, count_ebgp_sessions_established, hg, Res.trace,
            Res.errOf, traceTesterOnly, coreOnly, evTesterOnly, evCore]
  | false =>
      by_cases hc : countSessions d ≥ MIN_NUM_ACTIVE_BGP_SESSIONS
      · by_cases he : (pureInterfaces d ("down")).isEmpty
        · simp [establishedHandler, count_ebgp_sessions_established,
                find_interfaces, hg, hc, he, Res.trace, Res.errOf,
                traceTesterOnly, coreOnly, evTesterOnly, evCore]
        · rw [Bool.not_eq_true] at he
          cases hs : ctx.setOutcome <;>
            simp [establishedHandler, count_ebgp_sessions_established,
                  find_interfaces, hg, hc, he,
                  modify_cases _ _ _ _ (Or.inl rfl) he, hs,
                  Res.trace, Res.errOf, traceTesterOnly, coreOnly,
                  evTesterOnly, evCore, List.all_append,
                  payloadTester_mkPayload, pureInterfaces_all]
      · simp [establishedHandler, count_ebgp_sessions_established, hg, hc,
              Res.trace, Res.errOf, traceTesterOnly, coreOnly, evTesterOnly,
              evCore]

/-- With a present event whose subject starts with a non-digit character,
main is exactly the connect/disconnect wrapping of the dispatched handler. -/
theorem main_dispatch (ctx : Ctx) (d : Device) (ev : Event) (c : Char)
    (cs : List Char) (hsd : ev.subject.data = c :: cs)
    (hd : c.isDigit = false) :
    main ctx d (some ev) =
      wrapRes (if ev.eventid = 2039 then backwardsHandler ctx d ev.subject
               else if ev.eventid = 2038 then establishedHandler ctx d ev.subject
               else .ok () d []) := by
  cases hres : (if ev.eventid = 2039 then backwardsHandler ctx d ev.subject
                else if ev.eventid = 2038 then establishedHandler ctx d ev.subject
                else .ok () d []) with
  | ok a dev t => simp [main, hsd, hd, hres, wrapRes]
  | err e dev t => simp [main, hsd, hd, hres, wrapRes]

/-- Wrapping preserves the tag discipline of the mutation attempts. -/
theorem wrap_testerOnly (r : Res Unit) (h : traceTesterOnly r.trace = true) :
    traceTesterOnly (wrapRes r).trace = true := by
  cases r <;>
    simp_all [wrapRes, Res.trace, traceTesterOnly, evTesterOnly, List.all_append]

/-- A trace without connect or disconnect events counts zero disconnects. -/
theorem disconnectCount_of_coreOnly (t : List Ev) (h : coreOnly t = true) :
    disconnectCount t = 0 := by
  rw [disconnectCount, List.count_eq_zero]
  intro hmem
  have h2 := List.all_eq_true.mp h _ hmem
  simp [evCore] at h2

/-- Disconnect counting ignores a leading connect event. -/
theorem disconnectCount_cons_connect (t : List Ev) :
    disconnectCount (Ev.connect :: t) = disconnectCount t := by
  simp [disconnectCount]

/-- Disconnect counting is additive over concatenation. -/
theorem disconnectCount_append (a b : List Ev) :
    disconnectCount (a ++ b) = disconnectCount a + disconnectCount b := by
  simp [disconnectCount, List.count_append]

/-- Release discipline of the wrapping given a handler result that emits
neither connect nor disconnect itself. -/
theorem wrap_disconnect (r : Res Unit) (h : coreOnly r.trace = true) :
    (∀ a dev t, wrapRes r = .ok a dev t →
        disconnectCount t = 1 ∧ t.head? = some Ev.connect)
    ∧ (∀ er dev t, wrapRes r = .err er dev t →
        disconnectCount t = 0 ∧ t.head? = some Ev.connect) := by
  cases r with
  | ok a0 dev0 t0 =>
      refine ⟨?_, ?_⟩
      · intro a dev t heq
        simp only [wrapRes, Res.ok.injEq] at heq
        obtain ⟨-, -, ht⟩ := heq
        subst ht
        constructor
        · rw [disconnectCount_append, disconnectCount_cons_connect,
              disconnectCount_of_coreOnly t0 h]
          rfl
        · rfl
      · intro er dev t heq
        simp [wrapRes] at heq
  | err e0 dev0 t0 =>
      refine ⟨?_, ?_⟩
      · intro a dev t heq
        simp [wrapRes] at heq
      · intro er dev t heq
        simp only [wrapRes, Res.err.injEq] at heq
        obtain ⟨-, -, ht⟩ := heq
        subst ht
        constructor
        · rw [disconnectCount_cons_connect]
          exact disconnectCount_of_coreOnly t0 h
        · rfl

/-- C1: every interface whose adminState the controller ever submits for
mutation, and every interface returned by the Interface Selector, has a name
containing the downstream tag tester; no untagged interface is ever selected
or mutated, for any snapshot, environment and event. -/
theorem C1_downstream_tag_only (ctx : Ctx) (d : Device) (e : Option Event) :
    traceTesterOnly (main ctx d e).trace = true
    ∧ ∀ filt r dev t, find_interfaces ctx d filt = .ok r dev t →
        ∀ nm ∈ r, containsTester nm.1 = true := by
  constructor
  · cases e with
    | none => simp [main, traceTesterOnly, evTesterOnly, Res.trace]
    | some ev =>
      cases hsd : ev.subject.data with
      | nil => simp [main, hsd, Res.trace, traceTesterOnly, evTesterOnly]
      | cons c cs =>
        by_cases hd : c.isDigit = true
        · simp [main, hsd, hd, Res.trace, traceTesterOnly, evTesterOnly]
        · rw [Bool.not_eq_true] at hd
          rw [main_dispatch ctx d ev c cs hsd hd]
          apply wrap_testerOnly
          by_cases h39 : ev.eventid = 2039
          · simpa [h39] using (backwardsHandler_facts ctx d ev.subject).1
          · by_cases h38 : ev.eventid = 2038
            · simpa [h39, h38] using (establishedHandler_facts ctx d ev.subject).1
            · simp [h39, h38, Res.trace, traceTesterOnly]
  · intro filt r dev t h
    rw [find_interfaces] at h
    cases hg : ctx.getRaises with
    | true => simp [hg] at h
    | false =>
        simp only [hg, Bool.false_eq_true, if_false, Res.ok.injEq] at h
        obtain ⟨hr, -, -⟩ := h
        intro nm hnm
        exact pureInterfaces_tester d filt nm (hr ▸ hnm)

/-- Witness for C1: a concrete run of the controller and a concrete selector
call on the sample snapshot. -/
theorem C1_downstream_tag_only_witness :
    traceTesterOnly (main okCtx sampleDevice (some evDeg)).trace = true
    ∧ containsTester ("tester-1") = true := by
  refine ⟨(C1_downstream_tag_only okCtx sampleDevice (some evDeg)).1, ?_⟩
  exact (C1_downstream_tag_only okCtx sampleDevice (some evDeg)).2
    ("up") (pureInterfaces sampleDevice ("up")) sampleDevice
    [Ev.query ("state-interface") ("up")] rfl
    ("tester-1", sampleIf) (by decide)

/-- Release discipline of the wrapping in head/count form. -/
theorem wrap_release (r : Res Unit) (h : coreOnly r.trace = true) :
    (wrapRes r).trace.head? = some Ev.connect
    ∧ disconnectCount (wrapRes r).trace
        = (if (wrapRes r).isOk then 1 else 0) := by
  cases r with
  | ok a dev t =>
      refine ⟨rfl, ?_⟩
      simp only [wrapRes, Res.trace, Res.isOk, if_true]
      rw [disconnectCount_append, disconnectCount_cons_connect,
          disconnectCount_of_coreOnly t (by simpa [Res.trace] using h)]
      rfl
  | err e dev t =>
      refine ⟨rfl, ?_⟩
      simp only [wrapRes, Res.trace, Res.isOk, Bool.false_eq_true, if_false]
      rw [disconnectCount_cons_connect]
      exact disconnectCount_of_coreOnly t (by simpa [Res.trace] using h)

/-- On every execution, the trace starts with the connect, and the number of
disconnects is one on a normal return and zero when an exception escapes. -/
theorem main_release (ctx : Ctx) (d : Device) (e : Option Event) :
    (main ctx d e).trace.head? = some Ev.connect
    ∧ disconnectCount (main ctx d e).trace
        = (if (main ctx d e).isOk then 1 else 0) := by
  cases e with
  | none =>
      exact ⟨rfl, by simp [main, Res.trace, Res.isOk, disconnectCount]⟩
  | some ev =>
    cases hsd : ev.subject.data with
    | nil =>
        refine ⟨?_, ?_⟩ <;>
          simp [main, hsd, Res.trace, Res.isOk, disconnectCount]
    | cons c cs =>
      by_cases hd : c.isDigit = true
      · refine ⟨?_, ?_⟩ <;>
          simp [main, hsd, hd, Res.trace, Res.isOk, disconnectCount]
      · rw [Bool.not_eq_true] at hd
        rw [main_dispatch ctx d ev c cs hsd hd]
        apply wrap_release
        by_cases h39 : ev.eventid = 2039
        · simpa [h39] using (backwardsHandler_facts ctx d ev.subject).2.1
        · by_cases h38 : ev.eventid = 2038
          · simpa [h39, h38] using (establishedHandler_facts ctx d ev.subject).2.1
          · simp [h39, h38, Res.trace, coreOnly]

/-- C8 counterexample: when the first state query of the degradation handler
raises, the invocation acquires the management session but terminates
without releasing it, so release on every exit path fails as stated. -/
theorem C8_counterexample_leaked_session :
    (main raisingCtx sampleDevice (some evDeg)).isOk = false
    ∧ Ev.connect ∈ (main raisingCtx sampleDevice (some evDeg)).trace
    ∧ disconnectCount (main raisingCtx sampleDevice (some evDeg)).trace = 0 := by
  decide

/-- C8 (amended): the session acquired by connect at the start of main is
released by exactly one disconnect on every normally-returning exit path,
including the early discards; on a path where a handler or query raises, the
invocation terminates with the session still unreleased. -/
theorem C8_session_release_amended :
    (∀ ctx d e a dev t, main ctx d e = .ok a dev t →
        disconnectCount t = 1 ∧ t.head? = some Ev.connect)
    ∧ (∀ ctx d e er dev t, main ctx d e = .err er dev t →
        disconnectCount t = 0 ∧ t.head? = some Ev.connect) := by
  constructor
  · intro ctx d e a dev t heq
    have h := main_release ctx d e
    rw [heq] at h
    simp only [Res.trace, Res.isOk, if_true] at h
    exact ⟨h.2, h.1⟩
  · intro ctx d e er dev t heq
    have h := main_release ctx d e
    rw [heq] at h
    simp only [Res.trace, Res.isOk, Bool.false_eq_true, if_false] at h
    exact ⟨h.2, h.1⟩

/-- Witness for the amended C8 on both kinds of exit path. -/
theorem C8_session_release_amended_witness :
    (disconnectCount [Ev.connect, Ev.disconnect] = 1
      ∧ [Ev.connect, Ev.disconnect].head? = some Ev.connect)
    ∧ (disconnectCount
          [Ev.connect, Ev.query ("state-bgp-neighbor") ("Established")] = 0
      ∧ [Ev.connect,
         Ev.query ("state-bgp-neighbor") ("Established")].head?
          = some Ev.connect) :=
  ⟨C8_session_release_amended.1 okCtx sampleDevice none () sampleDevice
      [Ev.connect, Ev.disconnect] rfl,
   C8_session_release_amended.2 raisingCtx sampleDevice (some evDeg)
      PyError.transport sampleDevice
      [Ev.connect, Ev.query ("state-bgp-neighbor") ("Established")] rfl⟩

/-- C2: on a degradation event, when the counted established sessions reach
the threshold the handler returns normally with no mutation attempt and an
unchanged device; with the threshold at one, a count of zero enters the
restriction path (the Up-filtered selection runs) and a count of one does
not. -/
theorem C2_degradation_threshold :
    (∀ ctx d s, ctx.getRaises = false →
        countSessions d ≥ MIN_NUM_ACTIVE_BGP_SESSIONS →
        (backwardsHandler ctx d s).isOk = true
        ∧ (backwardsHandler ctx d s).device = d
        ∧ noSetAttempt (backwardsHandler ctx d s).trace = true)
    ∧ (∀ ctx d s, ctx.getRaises = false → countSessions d = 0 →
        Ev.query ("state-interface") ("up")
          ∈ (backwardsHandler ctx d s).trace)
    ∧ (∀ ctx d s, ctx.getRaises = false → countSessions d = 1 →
        noSetAttempt (backwardsHandler ctx d s).trace = true
        ∧ Ev.query ("state-interface") ("up")
            ∉ (backwardsHandler ctx d s).trace) := by
  refine ⟨?_, ?_, ?_⟩
  · intro ctx d s hg hc
    simp [backwardsHandler, count_ebgp_sessions_established, hg, hc,
          Res.isOk, Res.device, Res.trace, noSetAttempt, evNoSet]
  · intro ctx d s hg hc0
    have hc : ¬ countSessions d ≥ MIN_NUM_ACTIVE_BGP_SESSIONS := by
      simp [hc0, MIN_NUM_ACTIVE_BGP_SESSIONS]
    by_cases he : (pureInterfaces d ("up")).isEmpty
    · simp [backwardsHandler, count_ebgp_sessions_established, find_interfaces,
            hg, hc, he, Res.trace]
    · rw [Bool.not_eq_true] at he
      cases hs : ctx.setOutcome <;>
        simp [backwardsHandler, count_ebgp_sessions_established,
              find_interfaces, hg, hc, he,
              modify_cases _ _ _ _ (Or.inr rfl) he, hs, Res.trace]
  · intro ctx d s hg hc1
    have hc : countSessions d ≥ MIN_NUM_ACTIVE_BGP_SESSIONS := by
      simp [hc1, MIN_NUM_ACTIVE_BGP_SESSIONS]
    have hb : backwardsHandler ctx d s = .ok () d
        [Ev.query ("state-bgp-neighbor") ("Established"),
         Ev.query ("conf-bgp-neighbor") WELL_KNOWN_EBGP_GROUP_NAME] := by
      simp [backwardsHandler, count_ebgp_sessions_established, hg, hc]
    rw [hb]
    refine ⟨?_, ?_⟩ <;> simp only [Res.trace] <;> decide

/-- Witness for C2 at snapshots with a count of one and of zero. -/
theorem C2_degradation_threshold_witness :
    ((backwardsHandler okCtx upDevice ("peerA")).isOk = true
      ∧ (backwardsHandler okCtx upDevice ("peerA")).device = upDevice
      ∧ noSetAttempt (backwardsHandler okCtx upDevice ("peerA")).trace = true)
    ∧ Ev.query ("state-interface") ("up")
        ∈ (backwardsHandler okCtx sampleDevice ("peerA")).trace
    ∧ (noSetAttempt (backwardsHandler okCtx upDevice ("peerA")).trace = true
        ∧ Ev.query ("state-interface") ("up")
            ∉ (backwardsHandler okCtx upDevice ("peerA")).trace) :=
  ⟨C2_degradation_threshold.1 okCtx upDevice ("peerA") rfl (by decide),
   C2_degradation_threshold.2.1 okCtx sampleDevice ("peerA") rfl (by decide),
   C2_degradation_threshold.2.2 okCtx upDevice ("peerA") rfl (by decide)⟩

/-- C3: on an establishment event with the counted established sessions below
the threshold, the handler returns normally with no mutation attempt and an
unchanged device: restoration is attempted only once the threshold is met. -/
theorem C3_establishment_threshold (ctx : Ctx) (d : Device) (s : String)
    (hg : ctx.getRaises = false)
    (hc : countSessions d < MIN_NUM_ACTIVE_BGP_SESSIONS) :
    (establishedHandler ctx d s).isOk = true
    ∧ (establishedHandler ctx d s).device = d
    ∧ noSetAttempt (establishedHandler ctx d s).trace = true := by
  have hc2 : ¬ countSessions d ≥ MIN_NUM_ACTIVE_BGP_SESSIONS := by omega
  simp [establishedHandler, count_ebgp_sessions_established, hg, hc2,
        Res.isOk, Res.device, Res.trace, noSetAttempt, evNoSet]

/-- Witness for C3 at the sample snapshot with no established session. -/
theorem C3_establishment_threshold_witness :
    (establishedHandler okCtx sampleDevice ("peerA")).isOk = true
    ∧ (establishedHandler okCtx sampleDevice ("peerA")).device = sampleDevice
    ∧ noSetAttempt (establishedHandler okCtx sampleDevice ("peerA")).trace
        = true :=
  C3_establishment_threshold okCtx sampleDevice ("peerA") rfl (by decide)

/-- The counting loop of the script equals the length of the filtered peer
list, shifted by the accumulator. -/
theorem foldl_count_eq (S : List String) (l : List String) : ∀ n : Nat,
    l.foldl (fun acc a => if S.contains a then acc + 1 else acc) n
      = n + (l.filter (fun a => S.contains a)).length := by
  induction l with
  | nil => intro n; rfl
  | cons x xs ih =>
      intro n
      rw [List.foldl_cons, List.filter_cons]
      by_cases h : S.contains x = true
      · rw [if_pos h, if_pos h, ih, List.length_cons]
        omega
      · rw [if_neg h, if_neg h, ih]

/-- The code counter agrees with the specification formula. -/
theorem countSessions_eq_spec (d : Device) :
    countSessions d = specSessionCount d := by
  rw [countSessions, specSessionCount, foldl_count_eq]
  exact Nat.zero_add _

/-- C4: for every snapshot, the Session Counter returns exactly the number of
configured peers of the monitored group whose address carries an Established
session; the result is at most the number of configured peers, and an empty
configured or session snapshot yields zero with a normal return; with
duplicate-free keys the result is the cardinality of the matching peer
set. -/
theorem C4_session_counter (ctx : Ctx) (d : Device)
    (hg : ctx.getRaises = false) :
    count_ebgp_sessions_established ctx d =
      .ok (specSessionCount d) d
        [Ev.query ("state-bgp-neighbor") ("Established"),
         Ev.query ("conf-bgp-neighbor") WELL_KNOWN_EBGP_GROUP_NAME]
    ∧ specSessionCount d ≤ (configuredPeers d).length
    ∧ (d.bgpConf = [] → specSessionCount d = 0)
    ∧ (d.bgpState = [] → specSessionCount d = 0)
    ∧ ((configuredPeers d).Nodup →
        specSessionCount d =
          ((configuredPeers d).toFinset.filter
            (fun a => (establishedPeers d).contains a)).card) := by
  refine ⟨?_, ?_, ?_, ?_, ?_⟩
  · simp [count_ebgp_sessions_established, hg, countSessions_eq_spec]
  · exact List.length_filter_le _ _
  · intro h
    simp [specSessionCount, configuredPeers, h]
  · intro h
    simp [specSessionCount, establishedPeers, h]
  · intro hnd
    rw [specSessionCount, ← List.toFinset_filter, List.card_toFinset,
        List.Nodup.dedup (hnd.filter _)]

/-- Witness for C4 at a snapshot with one configured, established peer. -/
theorem C4_session_counter_witness :
    count_ebgp_sessions_established okCtx upDevice =
      .ok (specSessionCount upDevice) upDevice
        [Ev.query ("state-bgp-neighbor") ("Established"),
         Ev.query ("conf-bgp-neighbor") WELL_KNOWN_EBGP_GROUP_NAME]
    ∧ specSessionCount upDevice ≤ (configuredPeers upDevice).length
    ∧ (upDevice.bgpConf = [] → specSessionCount upDevice = 0)
    ∧ (upDevice.bgpState = [] → specSessionCount upDevice = 0)
    ∧ ((configuredPeers upDevice).Nodup →
        specSessionCount upDevice =
          ((configuredPeers upDevice).toFinset.filter
            (fun a => (establishedPeers upDevice).contains a)).card) :=
  C4_session_counter okCtx upDevice rfl

/-- C5: with no event the invocation is a clean connect/disconnect no-op; a
digit-leading subject likewise discards cleanly with no handler and no
mutation; otherwise event 2039 dispatches exactly the degradation handler,
2038 exactly the establishment handler, and any other identifier runs no
handler at all. -/
theorem C5_event_router (ctx : Ctx) (d : Device) :
    main ctx d none = .ok () d [Ev.connect, Ev.disconnect]
    ∧ (∀ ev c cs, ev.subject.data = c :: cs → c.isDigit = true →
        main ctx d (some ev) = .ok () d [Ev.connect, Ev.disconnect])
    ∧ (∀ ev c cs, ev.subject.data = c :: cs → c.isDigit = false →
        (ev.eventid = 2039 →
          main ctx d (some ev) = wrapRes (backwardsHandler ctx d ev.subject))
        ∧ (ev.eventid = 2038 →
          main ctx d (some ev) = wrapRes (establishedHandler ctx d ev.subject))
        ∧ (ev.eventid ≠ 2039 → ev.eventid ≠ 2038 →
          main ctx d (some ev) = .ok () d [Ev.connect, Ev.disconnect])) := by
  refine ⟨rfl, ?_, ?_⟩
  · intro ev c cs hsd hd
    simp [main, hsd, hd]
  · intro ev c cs hsd hd
    refine ⟨?_, ?_, ?_⟩
    · intro h39
      rw [main_dispatch ctx d ev c cs hsd hd, if_pos h39]
    · intro h38
      have h39 : ¬ ev.eventid = 2039 := by omega
      rw [main_dispatch ctx d ev c cs hsd hd, if_neg h39, if_pos h38]
    · intro h39 h38
      rw [main_dispatch ctx d ev c cs hsd hd, if_neg h39, if_neg h38]
      rfl

/-- Witness for C5: a digit-leading subject, a 2039 dispatch and an unknown
identifier, each at concrete inputs. -/
theorem C5_event_router_witness :
    main okCtx sampleDevice (some { eventid := 2039, subject := "10.1.1.1" })
      = .ok () sampleDevice [Ev.connect, Ev.disconnect]
    ∧ main okCtx sampleDevice (some evDeg)
      = wrapRes (backwardsHandler okCtx sampleDevice evDeg.subject)
    ∧ main okCtx sampleDevice (some { eventid := 7, subject := "peerA" })
      = .ok () sampleDevice [Ev.connect, Ev.disconnect] :=
  ⟨(C5_event_router okCtx sampleDevice).2.1
      { eventid := 2039, subject := "10.1.1.1" } '1' (String.data ("0.1.1.1"))
      rfl (by decide),
   ((C5_event_router okCtx sampleDevice).2.2 evDeg 'p' (String.data ("eerA"))
      rfl (by decide)).1 rfl,
   ((C5_event_router okCtx sampleDevice).2.2
      { eventid := 7, subject := "peerA" } 'p' (String.data ("eerA"))
      rfl (by decide)).2.2 (by decide) (by decide)⟩

/-- Below the threshold with a working query, the degradation handler always
returns normally, whatever candidate.set does. -/
theorem backwardsHandler_ok (ctx : Ctx) (d : Device) (s : String)
    (hg : ctx.getRaises = false) :
    (backwardsHandler ctx d s).isOk = true := by
  by_cases hc : countSessions d ≥ MIN_NUM_ACTIVE_BGP_SESSIONS
  · simp [backwardsHandler, count_ebgp_sessions_established, hg, hc, Res.isOk]
  · by_cases he : (pureInterfaces d ("up")).isEmpty
    · simp [backwardsHandler, count_ebgp_sessions_established, find_interfaces,
            hg, hc, he, Res.isOk]
    · rw [Bool.not_eq_true] at he
      cases hs : ctx.setOutcome <;>
        simp [backwardsHandler, count_ebgp_sessions_established,
              find_interfaces, hg, hc, he,
              modify_cases _ _ _ _ (Or.inr rfl) he, hs, Res.isOk]

/-- The establishment handler always returns normally when the query
works, whatever candidate.set does. -/
theorem establishedHandler_ok (ctx : Ctx) (d : Device) (s : String)
    (hg : ctx.getRaises = false) :
    (establishedHandler ctx d s).isOk = true := by
  by_cases hc : countSessions d ≥ MIN_NUM_ACTIVE_BGP_SESSIONS
  · by_cases he : (pureInterfaces d ("down")).isEmpty
    · simp [establishedHandler, count_ebgp_sessions_established,
            find_interfaces, hg, hc, he, Res.isOk]
    · rw [Bool.not_eq_true] at he
      cases hs : ctx.setOutcome <;>
        simp [establishedHandler, count_ebgp_sessions_established,
              find_interfaces, hg, hc, he,
              modify_cases _ _ _ _ (Or.inl rfl) he, hs, Res.isOk]
  · simp [establishedHandler, count_ebgp_sessions_established, hg, hc,
          Res.isOk]

/-- Wrapping preserves the normal/exceptional status of the handler. -/
theorem wrap_isOk (r : Res Unit) : (wrapRes r).isOk = r.isOk := by
  cases r <;> rfl

/-- With working queries and a non-empty subject, the whole invocation runs
to completion whatever candidate.set does. -/
theorem main_ok (ctx : Ctx) (d : Device) (e : Option Event)
    (hg : ctx.getRaises = false) (hs : eventSubjectOk e = true) :
    (main ctx d e).isOk = true := by
  cases e with
  | none => rfl
  | some ev =>
    cases hsd : ev.subject.data with
    | nil => simp [eventSubjectOk, hsd] at hs
    | cons c cs =>
      by_cases hd : c.isDigit = true
      · simp [main, hsd, hd, Res.isOk]
      · rw [Bool.not_eq_true] at hd
        rw [main_dispatch ctx d ev c cs hsd hd, wrap_isOk]
        by_cases h39 : ev.eventid = 2039
        · rw [if_pos h39]
          exact backwardsHandler_ok ctx d ev.subject hg
        · rw [if_neg h39]
          by_cases h38 : ev.eventid = 2038
          · rw [if_pos h38]
            exact establishedHandler_ok ctx d ev.subject hg
          · rw [if_neg h38]
            rfl

/-- C6: when candidate.set raises SrosMgmtError the batch mutation logs the
error detail; when it raises TypeError it logs the detail and the offending
payload; in both cases there is exactly one set attempt, no per-interface
fallback, an unchanged device, and a normal True return, and the whole
invocation still runs to completion. -/
theorem C6_mutation_error_swallowed (ctx : Ctx) (d : Device)
    (active : List (String × IfState)) (change : String)
    (hch : change = "enable" ∨ change = "disable")
    (hne : active.isEmpty = false) :
    (ctx.setOutcome = .srosErr →
      modify_downstream_interfaces ctx d active change =
        .ok true d [Ev.setAttempt (mkPayload active change),
                    Ev.logError .srosMgmt])
    ∧ (ctx.setOutcome = .typeErr →
      modify_downstream_interfaces ctx d active change =
        .ok true d [Ev.setAttempt (mkPayload active change),
                    Ev.logError .typeErr,
                    Ev.logPayload (mkPayload active change)])
    ∧ ((ctx.setOutcome = .srosErr ∨ ctx.setOutcome = .typeErr) →
        ctx.getRaises = false → ∀ e, eventSubjectOk e = true →
        (main ctx d e).isOk = true) := by
  refine ⟨?_, ?_, ?_⟩
  · intro hs
    rw [modify_cases ctx d active change hch hne, hs]
  · intro hs
    rw [modify_cases ctx d active change hch hne, hs]
  · intro _ hg e hs
    exact main_ok ctx d e hg hs

/-- Witness for C6 under both error outcomes at a concrete request. -/
theorem C6_mutation_error_swallowed_witness :
    modify_downstream_interfaces srosCtx sampleDevice
        [("tester-1", sampleIf)] ("disable")
      = .ok true sampleDevice
          [Ev.setAttempt [("tester-1", "disable")], Ev.logError .srosMgmt]
    ∧ modify_downstream_interfaces typeCtx sampleDevice
        [("tester-1", sampleIf)] ("disable")
      = .ok true sampleDevice
          [Ev.setAttempt [("tester-1", "disable")], Ev.logError .typeErr,
           Ev.logPayload [("tester-1", "disable")]]
    ∧ (main srosCtx sampleDevice (some evDeg)).isOk = true := by
  refine ⟨?_, ?_, ?_⟩
  · have h := (C6_mutation_error_swallowed srosCtx sampleDevice
        [("tester-1", sampleIf)] ("disable") (Or.inr rfl) rfl).1 rfl
    simpa [mkPayload] using h
  · have h := (C6_mutation_error_swallowed typeCtx sampleDevice
        [("tester-1", sampleIf)] ("disable") (Or.inr rfl) rfl).2.1 rfl
    simpa [mkPayload] using h
  · exact (C6_mutation_error_swallowed srosCtx sampleDevice
        [("tester-1", sampleIf)] ("disable") (Or.inr rfl) rfl).2.2
      (Or.inl rfl) rfl (some evDeg) rfl

/-- Wrapping preserves the escaped exception of the handler. -/
theorem wrap_errOf (r : Res Unit) : (wrapRes r).errOf = r.errOf := by
  cases r <;> rfl

/-- True exactly of mutation attempts. -/
def isSetAttempt : Ev → Bool
  | .setAttempt _ => true
  | _ => false

/-- C7 counterexample: the concrete mutating degradation run pauses twice,
not once, so the settle pause is not the unique suspension point located
between the mutation and the verification re-query. -/
theorem C7_counterexample_two_sleeps :
    (main okCtx sampleDevice (some evDeg)).trace.any isSetAttempt = true
    ∧ sleepCount (main okCtx sampleDevice (some evDeg)).trace = 2
    ∧ ¬ sleepCount (main okCtx sampleDevice (some evDeg)).trace = 1 := by
  decide

/-- C9: on a snapshot whose tagged interfaces are all operationally down, the
Restrict transition performs no mutation attempt and leaves the device
unchanged, and re-running the Interface Selector with the Up filter on the
resulting device returns the empty set: a repeated Restrict is a no-op. -/
theorem C9_restrict_idempotent (ctx : Ctx) (d : Device) (s : String)
    (hg : ctx.getRaises = false)
    (hdown : ∀ p ∈ d.interfaces, containsTester p.1 = true →
        p.2.operState = "down") :
    (backwardsHandler ctx d s).device = d
    ∧ noSetAttempt (backwardsHandler ctx d s).trace = true
    ∧ find_interfaces ctx (backwardsHandler ctx d s).device ("up")
        = .ok [] (backwardsHandler ctx d s).device
            [Ev.query ("state-interface") ("up")] := by
  have hup : pureInterfaces d ("up") = [] := by
    rw [pureInterfaces, List.filter_eq_nil_iff]
    intro p hp
    have h1 := List.mem_filter.mp hp
    have h2 : p.2.operState = "up" := by
      have := h1.2
      simpa using this
    intro hct
    have h3 := hdown p h1.1 hct
    rw [h2] at h3
    exact absurd h3 (by decide)
  by_cases hc : countSessions d ≥ MIN_NUM_ACTIVE_BGP_SESSIONS
  · have hb : backwardsHandler ctx d s = .ok () d
        [Ev.query ("state-bgp-neighbor") ("Established"),
         Ev.query ("conf-bgp-neighbor") WELL_KNOWN_EBGP_GROUP_NAME] := by
      simp [backwardsHandler, count_ebgp_sessions_established, hg, hc]
    rw [hb]
    refine ⟨rfl, by simp only [Res.trace]; decide, ?_⟩
    simp [find_interfaces, hg, Res.device, hup]
  · have hb : backwardsHandler ctx d s = .ok () d
        [Ev.query ("state-bgp-neighbor") ("Established"),
         Ev.query ("conf-bgp-neighbor") WELL_KNOWN_EBGP_GROUP_NAME,
         Ev.query ("state-interface") ("up")] := by
      simp [backwardsHandler, count_ebgp_sessions_established, find_interfaces,
            hg, hc, hup]
    rw [hb]
    refine ⟨rfl, by simp only [Res.trace]; decide, ?_⟩
    simp [find_interfaces, hg, Res.device, hup]

/-- Witness for C9 at the all-down sample snapshot. -/
theorem C9_restrict_idempotent_witness :
    (backwardsHandler okCtx downDevice ("peerA")).device = downDevice
    ∧ noSetAttempt (backwardsHandler okCtx downDevice ("peerA")).trace = true
    ∧ find_interfaces okCtx
        (backwardsHandler okCtx downDevice ("peerA")).device ("up")
        = .ok [] (backwardsHandler okCtx downDevice ("peerA")).device
            [Ev.query ("state-interface") ("up")] :=
  C9_restrict_idempotent okCtx downDevice ("peerA") rfl (by decide)

/-- C10: the malformed-subject guard is total only for non-empty subjects: an
event with an empty subject makes the indexing of its first character raise
IndexError before any disconnect, instead of the clean no-op discard; with a
non-empty subject no IndexError can arise anywhere in the invocation. -/
theorem C10_empty_subject_guard :
    (∀ ctx d i, main ctx d (some { eventid := i, subject := "" })
        = .err .indexErr d [Ev.connect])
    ∧ (∀ ctx d ev, ev.subject ≠ "" →
        (main ctx d (some ev)).errOf ≠ some PyError.indexErr) := by
  constructor
  · intro ctx d i
    rfl
  · intro ctx d ev hne
    cases hsd : ev.subject.data with
    | nil =>
        exact absurd (String.ext (hsd.trans rfl)) hne
    | cons c cs =>
        by_cases hd : c.isDigit = true
        · simp [main, hsd, hd, Res.errOf]
        · rw [Bool.not_eq_true] at hd
          rw [main_dispatch ctx d ev c cs hsd hd, wrap_errOf]
          by_cases h39 : ev.eventid = 2039
          · rw [if_pos h39]
            rcases (backwardsHandler_facts ctx d ev.subject).2.2 with h | h <;>
              simp [h]
          · rw [if_neg h39]
            by_cases h38 : ev.eventid = 2038
            · rw [if_pos h38]
              rcases (establishedHandler_facts ctx d ev.subject).2.2 with h | h <;>
                simp [h]
            · rw [if_neg h38]
              simp [Res.errOf]

/-- Witness for C10: the empty subject raises, the sample subject does not. -/
theorem C10_empty_subject_guard_witness :
    main okCtx sampleDevice (some { eventid := 2039, subject := "" })
      = .err .indexErr sampleDevice [Ev.connect]
    ∧ (main okCtx sampleDevice (some evDeg)).errOf ≠ some PyError.indexErr :=
  ⟨C10_empty_subject_guard.1 okCtx sampleDevice 2039,
   C10_empty_subject_guard.2 okCtx sampleDevice evDeg (by decide)⟩

/-- C7 (amended): in every run that applies a mutation, the settle pause
occurs exactly twice rather than once: one sleep immediately before the
candidate.set attempt, and one sleep after the mutator invocation and its
error logging, immediately before the verification re-query with the
opposite operational-status filter — down after Restrict, up after Restore —
and no further sleep occurs anywhere in the invocation. -/
theorem C7_settle_pause_amended (ctx : Ctx) (d : Device) (ev : Event)
    (c : Char) (cs : List Char) (hsd : ev.subject.data = c :: cs)
    (hd : c.isDigit = false) (hg : ctx.getRaises = false)
    (p : List (String × String))
    (hmut : Ev.setAttempt p ∈ (main ctx d (some ev)).trace) :
    ∃ u v w f,
      (main ctx d (some ev)).trace
        = u ++ [Ev.sleep, Ev.setAttempt p] ++ v
            ++ [Ev.sleep, Ev.query ("state-interface") f] ++ w
      ∧ sleepCount u = 0 ∧ sleepCount v = 0 ∧ sleepCount w = 0
      ∧ ((ev.eventid = 2039 ∧ f = "down")
          ∨ (ev.eventid = 2038 ∧ f = "up")) := by
  rw [main_dispatch ctx d ev c cs hsd hd] at hmut ⊢
  by_cases h39 : ev.eventid = 2039
  · rw [if_pos h39] at hmut ⊢
    by_cases hc : countSessions d ≥ MIN_NUM_ACTIVE_BGP_SESSIONS
    · exfalso
      simp [backwardsHandler, count_ebgp_sessions_established, hg, hc,
            wrapRes, Res.trace] at hmut
    · by_cases he : (pureInterfaces d ("up")).isEmpty
      · exfalso
        simp [backwardsHandler, count_ebgp_sessions_established,
              find_interfaces, hg, hc, he, wrapRes, Res.trace] at hmut
      · rw [Bool.not_eq_true] at he
        cases hs : ctx.setOutcome with
        | ok =>
          have htr : (wrapRes (backwardsHandler ctx d ev.subject)).trace
              = [Ev.connect,
                 Ev.query ("state-bgp-neighbor") ("Established"),
                 Ev.query ("conf-bgp-neighbor") WELL_KNOWN_EBGP_GROUP_NAME,
                 Ev.query ("state-interface") ("up"), Ev.sleep,
                 Ev.setAttempt (mkPayload (pureInterfaces d ("up")) ("disable")),
                 Ev.sleep, Ev.query ("state-interface") ("down"),
                 Ev.disconnect] := by
            simp [backwardsHandler, count_ebgp_sessions_established,
                  find_interfaces, hg, hc, he,
                  modify_cases _ _ _ _ (Or.inr rfl) he, hs, wrapRes, Res.trace]
          rw [htr] at hmut ⊢
          simp at hmut
          subst hmut
          refine ⟨[Ev.connect,
                   Ev.query ("state-bgp-neighbor") ("Established"),
                   Ev.query ("conf-bgp-neighbor") WELL_KNOWN_EBGP_GROUP_NAME,
                   Ev.query ("state-interface") ("up")],
                  [], [Ev.disconnect], ("down"),
                  by simp, by decide, rfl, by decide, Or.inl ⟨h39, rfl⟩⟩
        | srosErr =>
          have htr : (wrapRes (backwardsHandler ctx d ev.subject)).trace
              = [Ev.connect,
                 Ev.query ("state-bgp-neighbor") ("Established"),
                 Ev.query ("conf-bgp-neighbor") WELL_KNOWN_EBGP_GROUP_NAME,
                 Ev.query ("state-interface") ("up"), Ev.sleep,
                 Ev.setAttempt (mkPayload (pureInterfaces d ("up")) ("disable")),
                 Ev.logError .srosMgmt,
                 Ev.sleep, Ev.query ("state-interface") ("down"),
                 Ev.disconnect] := by
            simp [backwardsHandler, count_ebgp_sessions_established,
                  find_interfaces, hg, hc, he,
                  modify_cases _ _ _ _ (Or.inr rfl) he, hs, wrapRes, Res.trace]
          rw [htr] at hmut ⊢
          simp at hmut
          subst hmut
          refine ⟨[Ev.connect,
                   Ev.query ("state-bgp-neighbor") ("Established"),
                   Ev.query ("conf-bgp-neighbor") WELL_KNOWN_EBGP_GROUP_NAME,
                   Ev.query ("state-interface") ("up")],
                  [Ev.logError .srosMgmt], [Ev.disconnect], ("down"),
                  by simp, by decide, by decide, by decide,
                  Or.inl ⟨h39, rfl⟩⟩
        | typeErr =>
          have htr : (wrapRes (backwardsHandler ctx d ev.subject)).trace
              = [Ev.connect,
                 Ev.query ("state-bgp-neighbor") ("Established"),
                 Ev.query ("conf-bgp-neighbor") WELL_KNOWN_EBGP_GROUP_NAME,
                 Ev.query ("state-interface") ("up"), Ev.sleep,
                 Ev.setAttempt (mkPayload (pureInterfaces d ("up")) ("disable")),
                 Ev.logError .typeErr,
                 Ev.logPayload (mkPayload (pureInterfaces d ("up")) ("disable")),
                 Ev.sleep, Ev.query ("state-interface") ("down"),
                 Ev.disconnect] := by
            simp [backwardsHandler, count_ebgp_sessions_established,
                  find_interfaces, hg, hc, he,
                  modify_cases _ _ _ _ (Or.inr rfl) he, hs, wrapRes, Res.trace]
          rw [htr] at hmut ⊢
          simp at hmut
          subst hmut
          refine ⟨[Ev.connect,
                   Ev.query ("state-bgp-neighbor") ("Established"),
                   Ev.query ("conf-bgp-neighbor") WELL_KNOWN_EBGP_GROUP_NAME,
                   Ev.query ("state-interface") ("up")],
                  [Ev.logError .typeErr,
                   Ev.logPayload (mkPayload (pureInterfaces d ("up")) ("disable"))],
                  [Ev.disconnect], ("down"),
                  by simp, by decide, by rfl, by decide,
                  Or.inl ⟨h39, rfl⟩⟩
  · rw [if_neg h39] at hmut ⊢
    by_cases h38 : ev.eventid = 2038
    · rw [if_pos h38] at hmut ⊢
      by_cases hc : countSessions d ≥ MIN_NUM_ACTIVE_BGP_SESSIONS
      · by_cases he : (pureInterfaces d ("down")).isEmpty
        · exfalso
          simp [establishedHandler, count_ebgp_sessions_established,
                find_interfaces, hg, hc, he, wrapRes, Res.trace] at hmut
        · rw [Bool.not_eq_true] at he
          cases hs : ctx.setOutcome with
          | ok =>
            have htr : (wrapRes (establishedHandler ctx d ev.subject)).trace
                = [Ev.connect,
                   Ev.query ("state-bgp-neighbor") ("Established"),
                   Ev.query ("conf-bgp-neighbor") WELL_KNOWN_EBGP_GROUP_NAME,
                   Ev.query ("state-interface") ("down"), Ev.sleep,
                   Ev.setAttempt (mkPayload (pureInterfaces d ("down")) ("enable")),
                   Ev.sleep, Ev.query ("state-interface") ("up"),
                   Ev.disconnect] := by
              simp [establishedHandler, count_ebgp_sessions_established,
                    find_interfaces, hg, hc, he,
                    modify_cases _ _ _ _ (Or.inl rfl) he, hs, wrapRes, Res.trace]
            rw [htr] at hmut ⊢
            simp at hmut
            subst hmut
            refine ⟨[Ev.connect,
                     Ev.query ("state-bgp-neighbor") ("Established"),
                     Ev.query ("conf-bgp-neighbor") WELL_KNOWN_EBGP_GROUP_NAME,
                     Ev.query ("state-interface") ("down")],
                    [], [Ev.disconnect], ("up"),
                    by simp, by decide, rfl, by decide, Or.inr ⟨h38, rfl⟩⟩
          | srosErr =>
            have htr : (wrapRes (establishedHandler ctx d ev.subject)).trace
                = [Ev.connect,
                   Ev.query ("state-bgp-neighbor") ("Established"),
                   Ev.query ("conf-bgp-neighbor") WELL_KNOWN_EBGP_GROUP_NAME,
                   Ev.query ("state-interface") ("down"), Ev.sleep,
                   Ev.setAttempt (mkPayload (pureInterfaces d ("down")) ("enable")),
                   Ev.logError .srosMgmt,
                   Ev.sleep, Ev.query ("state-interface") ("up"),
                   Ev.disconnect] := by
              simp [establishedHandler, count_ebgp_sessions_established,
                    find_interfaces, hg, hc, he,
                    modify_cases _ _ _ _ (Or.inl rfl) he, hs, wrapRes, Res.trace]
            rw [htr] at hmut ⊢
            simp at hmut
            subst hmut
            refine ⟨[Ev.connect,
                     Ev.query ("state-bgp-neighbor") ("Established"),
                     Ev.query ("conf-bgp-neighbor") WELL_KNOWN_EBGP_GROUP_NAME,
                     Ev.query ("state-interface") ("down")],
                    [Ev.logError .srosMgmt], [Ev.disconnect], ("up"),
                    by simp, by decide, by decide, by decide,
                    Or.inr ⟨h38, rfl⟩⟩
          | typeErr =>
            have htr : (wrapRes (establishedHandler ctx d ev.subject)).trace
                = [Ev.connect,
                   Ev.query ("state-bgp-neighbor") ("Established"),
                   Ev.query ("conf-bgp-neighbor") WELL_KNOWN_EBGP_GROUP_NAME,
                   Ev.query ("state-interface") ("down"), Ev.sleep,
                   Ev.setAttempt (mkPayload (pureInterfaces d ("down")) ("enable")),
                   Ev.logError .typeErr,
                   Ev.logPayload (mkPayload (pureInterfaces d ("down")) ("enable")),
                   Ev.sleep, Ev.query ("state-interface") ("up"),
                   Ev.disconnect] := by
              simp [establishedHandler, count_ebgp_sessions_established,
                    find_interfaces, hg, hc, he,
                    modify_cases _ _ _ _ (Or.inl rfl) he, hs, wrapRes, Res.trace]
            rw [htr] at hmut ⊢
            simp at hmut
            subst hmut
            refine ⟨[Ev.connect,
                     Ev.query ("state-bgp-neighbor") ("Established"),
                     Ev.query ("conf-bgp-neighbor") WELL_KNOWN_EBGP_GROUP_NAME,
                     Ev.query ("state-interface") ("down")],
                    [Ev.logError .typeErr,
                     Ev.logPayload (mkPayload (pureInterfaces d ("down")) ("enable"))],
                    [Ev.disconnect], ("up"),
                    by simp, by decide, by rfl, by decide,
                    Or.inr ⟨h38, rfl⟩⟩
      · exfalso
        simp [establishedHandler, count_ebgp_sessions_established, hg, hc,
              wrapRes, Res.trace] at hmut
    · exfalso
      rw [if_neg h38] at hmut
      simp [wrapRes, Res.trace] at hmut

/-- Witness for the amended C7 at the concrete mutating degradation run. -/
theorem C7_settle_pause_amended_witness :
    ∃ u v w f,
      (main okCtx sampleDevice (some evDeg)).trace
        = u ++ [Ev.sleep, Ev.setAttempt [("tester-1", "disable")]] ++ v
            ++ [Ev.sleep, Ev.query ("state-interface") f] ++ w
      ∧ sleepCount u = 0 ∧ sleepCount v = 0 ∧ sleepCount w = 0
      ∧ ((evDeg.eventid = 2039 ∧ f = "down")
          ∨ (evDeg.eventid = 2038 ∧ f = "up")) :=
  C7_settle_pause_amended okCtx sampleDevice evDeg 'p'
    (String.data ("eerA")) rfl (by decide) rfl
    [("tester-1", "disable")] (by decide)

end OperGroup
